import Mathlib

/-!
# where2meet — event lifecycle, admission, voting and generation workflows

Shallow embedding of the core route handlers of the where2meet repository:

* `src/app/api/events/[id]/participants/route.ts` (join, list participants)
* `src/app/api/events/[id]/retry/route.ts`        (manual recommendation retry)
* the vote route (`POST`/`DELETE` cast/remove vote)
* the votes summary route (`GET` tally)
* `src/app/api/events/[id]/finalize/route.ts`     (finalize)
* the recommendations list route and the event detail route
* `src/lib/utils.ts` `generateUniqueNickname`

The persistent store is modelled as an explicit state (`DB`) holding one
`Event` row together with its `Participant`, `Recommendation` and `Vote`
rows; route handlers become pure functions from a `DB` (plus the request
parameters and the current time) to a response and an updated `DB`.
The external LLM generator is an opaque collaborator; its outcome enters
the embedding as a `GenResult` parameter (the generator either yields a
list of ranked candidates or fails), exactly as the route code only ever
inspects `recommendations.recommendations`/thrown errors.  The
floating-point `coordinates` carried inside the generator payload are
never read by any of the embedded logic and are elided from the payload
records.
-/

namespace Where2Meet

/-- Persisted event status (`eventStatusSchema` in `src/lib/validations.ts`). -/
inductive Status where
  | WAITING
  | READY
  | VOTING
  | FINALIZED
  | EXPIRED
  deriving DecidableEq, Repr

/-- One per-participant distance record of a recommendation payload
(string fields of the generator's `distances` entries; the numeric
coordinates are pass-through JSON never read by the core). -/
structure DistanceInfo where
  participant : String
  estimate : String
  transport : String
  deriving DecidableEq, Repr

/-- One recommendation item as returned by the generator
(`recommendationSchema` in `src/lib/validations.ts`). -/
structure RecInput where
  rank : Nat
  name : String
  locType : String
  description : String
  fairness_analysis : String
  suitability_score : ℚ
  facilities : List String
  distances : List DistanceInfo
  deriving DecidableEq, Repr

/-- An `Event` row. -/
structure Event where
  id : String
  shortCode : String
  title : String
  purpose : Option String
  eventTime : Option String
  specialRequirements : Option String
  expectedParticipants : Nat
  status : Status
  finalLocationId : Option Nat
  votingStartedAt : Option Nat
  votingEndedAt : Option Nat
  createdAt : Nat
  updatedAt : Nat
  expiresAt : Nat
  deriving DecidableEq, Repr

/-- A `Participant` row. -/
structure Participant where
  id : Nat
  eventId : String
  nickname : String
  address : String
  isCreator : Bool
  joinedAt : Nat
  deriving DecidableEq, Repr

/-- A `Recommendation` row. -/
structure Recommendation where
  id : Nat
  eventId : String
  locationName : Option String
  locationType : String
  description : String
  fairnessAnalysis : String
  suitabilityScore : ℚ
  rank : Nat
  facilities : List String
  distances : List DistanceInfo
  generatedAt : Nat
  deriving DecidableEq, Repr

/-- A `Vote` row. -/
structure Vote where
  id : Nat
  recommendationId : Nat
  eventId : String
  voterNickname : String
  deriving DecidableEq, Repr

/-- The store state: one event together with all its dependent rows.
(The claims under study all concern a single event; rows carry their
`eventId` foreign keys and every query filters on them, as in the
Prisma calls.) -/
structure DB where
  event : Event
  participants : List Participant
  recommendations : List Recommendation
  votes : List Vote
  deriving DecidableEq, Repr

/-- `prisma.event.findUnique({ where: { id, expiresAt: { gt: now } } })`:
the event is returned only when the id matches and it has not expired. -/
def findLiveEvent (db : DB) (eventId : String) (now : Nat) : Option Event :=
  if eventId = db.event.id ∧ now < db.event.expiresAt then some db.event else none

/-- The participants of an event (`where: { eventId }`), in stored order. -/
def eventParticipants (db : DB) (eventId : String) : List Participant :=
  db.participants.filter (fun p => p.eventId = eventId)

/-- Insertion step for ordering participant rows by `joinedAt` ascending. -/
def insertByJoined (p : Participant) : List Participant → List Participant
  | [] => [p]
  | q :: qs => if p.joinedAt < q.joinedAt then p :: q :: qs else q :: insertByJoined p qs

/-- `orderBy: { joinedAt: 'asc' }` on a participant query. -/
def sortByJoined : List Participant → List Participant
  | [] => []
  | p :: ps => insertByJoined p (sortByJoined ps)

/-- Insertion step for ordering recommendation rows by `rank` ascending. -/
def insertByRank (r : Recommendation) : List Recommendation → List Recommendation
  | [] => [r]
  | s :: ss => if r.rank < s.rank then r :: s :: ss else s :: insertByRank r ss

/-- `orderBy: { rank: 'asc' }` on a recommendation query. -/
def sortByRank : List Recommendation → List Recommendation
  | [] => []
  | r :: rs => insertByRank r (sortByRank rs)

/-! ## Nickname assignment (`generateUniqueNickname`, `src/lib/utils.ts`) -/

/-- `Math.floor(Math.random() * 90) + 10`: a random two-digit suffix in
10–99, driven here by an abstract random source value. -/
def twoDigitSuffix (r : Nat) : Nat := r % 90 + 10

/-- `Date.now().toString().slice(-2)`: the last two characters of the
decimal timestamp. -/
def last2OfTimestamp (ts : Nat) : String :=
  let s := toString ts
  String.mk (s.data.drop (s.length - 2))

/-- The retry loop of `generateUniqueNickname`: the `do … while` loop
checks the names built from random draws 1..90 against the existing
nicknames (`attempts > maxAttempts` aborts the 91st iteration with the
timestamp fallback before its draw is ever compared). `draws i` is the
random source consumed at (0-based) attempt `i`. -/
def genNicknameLoop (baseNickname : String) (existingNicknames : List String)
    (draws : Nat → Nat) (ts : Nat) : Nat → Nat → String
  | 0, _ => baseNickname ++ "_" ++ last2OfTimestamp ts
  | fuel + 1, i =>
    let uniqueName := baseNickname ++ "_" ++ toString (twoDigitSuffix (draws i))
    if existingNicknames.contains uniqueName then
      genNicknameLoop baseNickname existingNicknames draws ts fuel (i + 1)
    else uniqueName

/-- `generateUniqueNickname(baseNickname, existingNicknames)` from
`src/lib/utils.ts`, with the random source and current timestamp made
explicit parameters. -/
def generateUniqueNickname (baseNickname : String) (existingNicknames : List String)
    (draws : Nat → Nat) (ts : Nat) : String :=
  if existingNicknames.contains baseNickname then
    genNicknameLoop baseNickname existingNicknames draws ts 90 0
  else
    baseNickname

/-- Generic success/error response body of the read routes: every
handler answers either `{ success: true, data }` or
`{ success: false, error }`. -/
inductive ApiResponse (α : Type) where
  | ok (data : α)
  | error (code : String)
  deriving DecidableEq, Repr

/-! ## Recommendation generation (shared by the automatic trigger and retry) -/

/-- Outcome of `llmService.generateRecommendations`: either a response
carrying a list of recommendation items, or a thrown error
(`NO_API_KEY`, `INVALID_ADDRESSES`, `NO_RESULTS`). -/
inductive GenResult where
  | ok (recommendations : List RecInput)
  | err
  deriving DecidableEq, Repr

/-- `tx.recommendation.create({ data })` input built from one generator
item (`recommendationData.map` in both route handlers); ids are assigned
by the store's sequence, made explicit here. -/
def recRow (eventId : String) (recId : Nat) (genAt : Nat) (r : RecInput) : Recommendation :=
  { id := recId
    eventId := eventId
    locationName := some r.name
    locationType := r.locType
    description := r.description
    fairnessAnalysis := r.fairness_analysis
    suitabilityScore := r.suitability_score
    rank := r.rank
    facilities := r.facilities
    distances := r.distances
    generatedAt := genAt }

/-- The batch of rows created by the sequential `tx.recommendation.create`
loop, with sequence ids `firstRecId`, `firstRecId + 1`, …. -/
def recRows (eventId : String) (firstRecId : Nat) (genAt : Nat) :
    List RecInput → List Recommendation
  | [] => []
  | r :: rs => recRow eventId firstRecId genAt r :: recRows eventId (firstRecId + 1) genAt rs

/-- The asynchronous generation task dispatched from the join handler
(`Promise.resolve().then(…)`, `participants/route.ts` lines 118–162):
on a non-empty generator result, one transaction inserts the new
recommendation rows and sets the event to `VOTING` with
`votingStartedAt = now`; on a thrown generator error, the catch block
touches only `updatedAt` as an error signal.  (Note: unlike the manual
retry transaction, this transaction does not delete pre-existing
recommendation rows.) -/
def autoGenerate (db : DB) (eventId : String) (now : Nat) (gen : GenResult)
    (firstRecId : Nat) : DB :=
  match gen with
  | .ok recs =>
    if recs.length > 0 then
      { db with
        recommendations := db.recommendations ++ recRows eventId firstRecId now recs
        event :=
          if db.event.id = eventId then
            { db.event with status := .VOTING, votingStartedAt := some now }
          else db.event }
    else
      -- `recommendations.length > 0` fails: neither branch runs, no write.
      db
  | .err =>
    { db with
      event :=
        if db.event.id = eventId then
          { db.event with updatedAt := now }
        else db.event }

/-! ## Join (`POST /api/events/[id]/participants`) -/

/-- Error codes of the join handler (after schema validation). -/
inductive JoinError where
  | EVENT_NOT_FOUND
  | EVENT_FULL
  deriving DecidableEq, Repr

/-- The `data` object of a successful join response. -/
structure JoinData where
  participant : Participant
  participant_count : Nat
  should_generate_recommendations : Bool
  nickname_modified : Bool
  original_nickname : Option String
  assigned_nickname : String
  deriving DecidableEq, Repr

/-- Join response body. -/
inductive JoinResponse where
  | ok (data : JoinData)
  | error (e : JoinError)
  deriving DecidableEq, Repr

/-- Result of one run of the join handler: the response returned to the
caller, the store state when the response is returned, and whether a
generation task was dispatched (the fire-and-forget
`Promise.resolve().then`; its effect on the store is `autoGenerate`,
applied later and independently of this response). -/
structure JoinOutcome where
  response : JoinResponse
  db : DB
  generationScheduled : Bool
  deriving DecidableEq, Repr

/-- The join handler (`POST` of `participants/route.ts`), after schema
validation.  `draws`/`ts` drive the nickname collision loop,
`newParticipantId`/`joinTime` are the store-assigned row id and
timestamp of the inserted participant. -/
def joinEvent (db : DB) (eventId : String) (now : Nat)
    (nickname address : String) (draws : Nat → Nat) (ts : Nat)
    (newParticipantId joinTime : Nat) : JoinOutcome :=
  match findLiveEvent db eventId now with
  | none => { response := .error .EVENT_NOT_FOUND, db := db, generationScheduled := false }
  | some event =>
    let participants := eventParticipants db eventId
    if event.status ≠ .WAITING then
      { response := .error .EVENT_FULL, db := db, generationScheduled := false }
    else if participants.length ≥ event.expectedParticipants then
      { response := .error .EVENT_FULL, db := db, generationScheduled := false }
    else
      let existingNicknames := participants.map (fun p => p.nickname)
      let originalNickname := nickname
      let assignedNickname := generateUniqueNickname nickname existingNicknames draws ts
      let wasModified := originalNickname ≠ assignedNickname
      let newParticipant : Participant :=
        { id := newParticipantId
          eventId := eventId
          nickname := assignedNickname
          address := address
          isCreator := false
          joinedAt := joinTime }
      let db1 : DB := { db with participants := db.participants ++ [newParticipant] }
      let newParticipantCount := participants.length + 1
      let crossed := newParticipantCount = event.expectedParticipants
      -- `event.update({ where: { id: eventId }, data: { status: 'READY' } })`
      -- (the event with this id exists: `findLiveEvent` just returned it)
      let db2 : DB :=
        if crossed then { db1 with event := { db1.event with status := .READY } } else db1
      -- re-query: `findUnique({ where: { id: eventId } })` with participants
      -- ordered by join time (no expiry filter on this read)
      let fullParticipants := sortByJoined (eventParticipants db2 eventId)
      let scheduled := crossed ∧ fullParticipants.length ≥ 2
      { response := .ok
          { participant := newParticipant
            participant_count := newParticipantCount
            should_generate_recommendations := crossed
            nickname_modified := wasModified
            original_nickname := if wasModified then some originalNickname else none
            assigned_nickname := assignedNickname }
        db := db2
        generationScheduled := scheduled }

/-- `GET` of `participants/route.ts`: a plain `findMany` filtered on the
event id and the event's expiry (`event: { expiresAt: { gt: now } }` on
the relation); the handler has no not-found branch and always answers
success with the (possibly empty) list. -/
def listParticipantsRoute (db : DB) (eventId : String) (now : Nat) :
    ApiResponse (List Participant) :=
  .ok (sortByJoined (db.participants.filter
    (fun p => p.eventId = eventId ∧ p.eventId = db.event.id ∧ now < db.event.expiresAt)))

/-! ## Manual retry (`POST /api/events/[id]/retry`) -/

/-- Result codes of the manual retry handler. -/
inductive RetryResult where
  | EVENT_NOT_FOUND
  | EVENT_NOT_READY
  | PARTICIPANTS_NOT_COMPLETE
  | NOT_AUTHORIZED
  | LLM_ERROR
  | success
  deriving DecidableEq, Repr

/-- The event's participants ordered by join time, as loaded by the retry
handler (`include: { participants: { orderBy: { joinedAt: 'asc' } } }`). -/
def eventParticipantsSorted (db : DB) (eventId : String) : List Participant :=
  sortByJoined (eventParticipants db eventId)

/-- `event.participants.find(p => p.isCreator)` over the ordered list. -/
def creatorOf (db : DB) (eventId : String) : Option Participant :=
  (eventParticipantsSorted db eventId).find? (fun p => p.isCreator)

/-- The manual retry handler (`POST` of `retry/route.ts`), after schema
validation.  The generator call is synchronous here; its outcome is the
`gen` parameter.  On a non-empty result one transaction deletes the
event's existing recommendation rows, inserts the new ones and sets the
event to `VOTING`; an empty result throws (`'No recommendations
generated'`) and, like a generator error, is caught and answered with
`LLM_ERROR` without any write. -/
def retryRecommendations (db : DB) (eventId : String) (now : Nat)
    (creatorNickname : String) (gen : GenResult) (firstRecId : Nat) :
    RetryResult × DB :=
  match findLiveEvent db eventId now with
  | none => (.EVENT_NOT_FOUND, db)
  | some event =>
    let participants := eventParticipantsSorted db eventId
    if event.status ≠ .READY then (.EVENT_NOT_READY, db)
    else if participants.length ≠ event.expectedParticipants then
      (.PARTICIPANTS_NOT_COMPLETE, db)
    else
      match participants.find? (fun p => p.isCreator) with
      | none => (.NOT_AUTHORIZED, db)
      | some creator =>
        if creator.nickname ≠ creatorNickname then (.NOT_AUTHORIZED, db)
        else
          match gen with
          | .err => (.LLM_ERROR, db)
          | .ok recs =>
            if recs.length > 0 then
              (.success,
               { db with
                 recommendations :=
                   db.recommendations.filter (fun r => r.eventId ≠ eventId)
                     ++ recRows eventId firstRecId now recs
                 event := { db.event with status := .VOTING, votingStartedAt := some now } })
            else (.LLM_ERROR, db)

/-! ## Voting (vote route `POST`/`DELETE`, votes summary `GET`) -/

/-- Result of the vote routes: precondition errors, the distinct
already-voted outcome, or a success carrying the updated summary for the
requested recommendation. -/
inductive VoteResult where
  | EVENT_NOT_FOUND
  | VOTING_NOT_STARTED
  | NOT_PARTICIPANT
  | ALREADY_VOTED
  | ok (voteCount : Nat) (voters : List String) (hasCurrentUserVoted : Bool)
  deriving DecidableEq, Repr

/-- The post-transaction summary query of both vote routes:
`vote.findMany({ where: { recommendationId } })`, then the voter
nicknames and whether the acting voter is among them. -/
def voteSummaryResult (db : DB) (recommendationId : Nat) (nickname : String) : VoteResult :=
  let votes := db.votes.filter (fun v => v.recommendationId = recommendationId)
  let voters := votes.map (fun v => v.voterNickname)
  .ok votes.length voters (voters.contains nickname)

/-- The cast-vote handler (`POST` of the vote route), after schema
validation.  The transaction looks up the voter's existing vote in the
event; same target → no change (`ALREADY_VOTED`); different target →
delete then insert; none → insert. -/
def castVote (db : DB) (eventId : String) (recommendationId : Nat) (now : Nat)
    (nickname : String) (newVoteId : Nat) : VoteResult × DB :=
  match findLiveEvent db eventId now with
  | none => (.EVENT_NOT_FOUND, db)
  | some event =>
    if event.status ≠ .VOTING then (.VOTING_NOT_STARTED, db)
    else if ¬ (eventParticipants db eventId).any (fun p => p.nickname = nickname) then
      (.NOT_PARTICIPANT, db)
    else
      match db.recommendations.find?
          (fun r => r.id = recommendationId ∧ r.eventId = eventId) with
      | none => (.EVENT_NOT_FOUND, db)
      | some _ =>
        let newVote : Vote :=
          { id := newVoteId
            recommendationId := recommendationId
            eventId := eventId
            voterNickname := nickname }
        match db.votes.find?
            (fun v => v.eventId = eventId ∧ v.voterNickname = nickname) with
        | some existingVote =>
          if existingVote.recommendationId = recommendationId then
            (.ALREADY_VOTED, db)
          else
            let db' : DB :=
              { db with votes :=
                  db.votes.filter (fun v => v.id ≠ existingVote.id) ++ [newVote] }
            (voteSummaryResult db' recommendationId nickname, db')
        | none =>
          let db' : DB := { db with votes := db.votes ++ [newVote] }
          (voteSummaryResult db' recommendationId nickname, db')

/-- The remove-vote handler (`DELETE` of the vote route): the voter's
vote for this specific recommendation must exist, else a NOT_FOUND-class
answer; on success it is deleted and the updated summary returned. -/
def removeVote (db : DB) (eventId : String) (recommendationId : Nat) (now : Nat)
    (nickname : String) : VoteResult × DB :=
  match findLiveEvent db eventId now with
  | none => (.EVENT_NOT_FOUND, db)
  | some event =>
    if event.status ≠ .VOTING then (.VOTING_NOT_STARTED, db)
    else if ¬ (eventParticipants db eventId).any (fun p => p.nickname = nickname) then
      (.NOT_PARTICIPANT, db)
    else
      match db.votes.find?
          (fun v => v.recommendationId = recommendationId ∧ v.eventId = eventId ∧
            v.voterNickname = nickname) with
      | none => (.EVENT_NOT_FOUND, db)
      | some existingVote =>
        let db' : DB :=
          { db with votes := db.votes.filter (fun v => v.id ≠ existingVote.id) }
        (voteSummaryResult db' recommendationId nickname, db')

/-- One per-recommendation entry of the votes summary (`VoteSummary`). -/
structure TallyEntry where
  recommendationId : Nat
  locationName : String
  voteCount : Nat
  voters : List String
  hasCurrentUserVoted : Bool
  deriving DecidableEq, Repr

/-- Body of a successful votes-summary response. -/
structure TallyData where
  recommendations : List TallyEntry
  totalVotes : Nat
  participantCount : Nat
  deriving DecidableEq, Repr

/-- The votes-summary handler (`GET` of the votes route). -/
def getVoteTally (db : DB) (eventId : String) (now : Nat)
    (currentUserNickname : Option String) : ApiResponse TallyData :=
  match findLiveEvent db eventId now with
  | none => .error "EVENT_NOT_FOUND"
  | some _ =>
    let recs := sortByRank (db.recommendations.filter (fun r => r.eventId = eventId))
    let entries := recs.map (fun rec =>
      let votes := db.votes.filter (fun v => v.recommendationId = rec.id)
      let voters := votes.map (fun v => v.voterNickname)
      { recommendationId := rec.id
        locationName := rec.locationName.getD "Unknown Location"
        voteCount := votes.length
        voters := voters
        hasCurrentUserVoted :=
          match currentUserNickname with
          | some n => voters.contains n
          | none => false : TallyEntry })
    .ok
      { recommendations := entries
        totalVotes := (entries.map (fun e => e.voteCount)).sum
        participantCount := (eventParticipants db eventId).length }

/-! ## Finalize (`POST /api/events/[id]/finalize`) and reads -/

/-- Result codes of the finalize handler. -/
inductive FinalizeResult where
  | EVENT_NOT_FOUND
  | VOTING_ENDED
  | NOT_PARTICIPANT
  | ok
  deriving DecidableEq, Repr

/-- The finalize handler (`POST` of `finalize/route.ts`), after schema
validation. -/
def finalizeEvent (db : DB) (eventId : String) (now : Nat)
    (finalLocationId : Nat) (creatorNickname : String) : FinalizeResult × DB :=
  match findLiveEvent db eventId now with
  | none => (.EVENT_NOT_FOUND, db)
  | some event =>
    if event.status ≠ .VOTING then (.VOTING_ENDED, db)
    else
      -- `participants: { where: { isCreator: true } }`, then `participants[0]`
      match (db.participants.filter
          (fun p => p.eventId = eventId ∧ p.isCreator = true)).head? with
      | none => (.NOT_PARTICIPANT, db)
      | some creator =>
        if creator.nickname ≠ creatorNickname then (.NOT_PARTICIPANT, db)
        else if (db.recommendations.filter
            (fun r => r.eventId = eventId ∧ r.id = finalLocationId)).length = 0 then
          (.EVENT_NOT_FOUND, db)
        else
          (.ok,
           { db with event :=
               { db.event with
                 status := .FINALIZED
                 finalLocationId := some finalLocationId
                 votingEndedAt := some now } })

/-- The event detail read (`GET /api/events/[id]`). -/
def getEventRoute (db : DB) (eventId : String) (now : Nat) : ApiResponse Event :=
  match findLiveEvent db eventId now with
  | none => .error "EVENT_NOT_FOUND"
  | some event => .ok event

/-- The recommendations list read (`GET .../recommendations`): a plain
`findMany` filtered on the event id and the event's expiry; the handler
has no not-found branch and always answers success with the (possibly
empty) list. -/
def listRecommendationsRoute (db : DB) (eventId : String) (now : Nat) :
    ApiResponse (List Recommendation) :=
  .ok (sortByRank (db.recommendations.filter
    (fun r => r.eventId = eventId ∧ r.eventId = db.event.id ∧ now < db.event.expiresAt)))

/-! ## Voting-ledger invariant machinery -/

/-- The live votes of one `(eventId, voterNickname)` pair. -/
def liveVotes (votes : List Vote) (eventId nickname : String) : List Vote :=
  votes.filter (fun v => v.eventId = eventId ∧ v.voterNickname = nickname)

/-- At most one live `Vote` per `(eventId, voterNickname)`. -/
def VoteInvariant (db : DB) : Prop :=
  ∀ eventId nickname, (liveVotes db.votes eventId nickname).length ≤ 1

/-- One voting-ledger request (the store-visible part of a `POST` or
`DELETE` call of the vote route). -/
inductive VoteOp where
  | cast (eventId : String) (recommendationId now : Nat) (nickname : String) (newVoteId : Nat)
  | remove (eventId : String) (recommendationId now : Nat) (nickname : String)
  deriving DecidableEq, Repr

/-- Store effect of one voting-ledger request. -/
def applyVoteOp (db : DB) : VoteOp → DB
  | .cast e r t n i => (castVote db e r t n i).2
  | .remove e r t n => (removeVote db e r t n).2

/-- Store effect of a sequence of voting-ledger requests. -/
def applyVoteOps (db : DB) (ops : List VoteOp) : DB :=
  ops.foldl applyVoteOp db

/-! ## Concrete fixtures for witnesses and counterexamples -/

/-- A two-person event row in the given status, not expired before time 1000. -/
def mkEvent (status : Status) : Event :=
  { id := "e1"
    shortCode := "ABC123"
    title := "Team lunch"
    purpose := some "dining"
    eventTime := none
    specialRequirements := none
    expectedParticipants := 2
    status := status
    finalLocationId := none
    votingStartedAt := none
    votingEndedAt := none
    createdAt := 0
    updatedAt := 0
    expiresAt := 1000 }

/-- Creator participant fixture. -/
def pAlice : Participant :=
  { id := 1, eventId := "e1", nickname := "Alice", address := "12 North St"
    isCreator := true, joinedAt := 1 }

/-- Second participant fixture. -/
def pBob : Participant :=
  { id := 2, eventId := "e1", nickname := "Bob", address := "34 South St"
    isCreator := false, joinedAt := 2 }

/-- A stored recommendation row fixture. -/
def sampleRec (i rank : Nat) : Recommendation :=
  { id := i, eventId := "e1", locationName := some "Central Cafe"
    locationType := "cafe", description := "central and fair"
    fairnessAnalysis := "balanced travel", suitabilityScore := 7
    rank := rank, facilities := [], distances := [], generatedAt := 0 }

/-- A generator output item fixture. -/
def sampleInput (rank : Nat) : RecInput :=
  { rank := rank, name := "Central Cafe", locType := "cafe"
    description := "central and fair", fairness_analysis := "balanced travel"
    suitability_score := 7, facilities := [], distances := [] }

/-- A full generator result of three ranked items. -/
def sampleInputs : List RecInput := [sampleInput 1, sampleInput 2, sampleInput 3]

/-- A `WAITING` event with one of two expected participants. -/
def dbWaiting1 : DB :=
  { event := mkEvent .WAITING, participants := [pAlice]
    recommendations := [], votes := [] }

/-- A full `READY` event with no recommendations yet. -/
def dbReady : DB :=
  { event := mkEvent .READY, participants := [pAlice, pBob]
    recommendations := [], votes := [] }

/-- A full `READY` event that already holds one recommendation row. -/
def dbReadyWithRec : DB :=
  { event := mkEvent .READY, participants := [pAlice, pBob]
    recommendations := [sampleRec 99 1], votes := [] }

/-- A `VOTING` event with two recommendations and one live vote by
Alice for recommendation 1. -/
def dbVoting : DB :=
  { event := mkEvent .VOTING, participants := [pAlice, pBob]
    recommendations := [sampleRec 1 1, sampleRec 2 2]
    votes := [{ id := 5, recommendationId := 1, eventId := "e1", voterNickname := "Alice" }] }

/-- An event whose `expiresAt` (10) is already in the past at time 20,
with a stored participant and a `VOTING` status field. -/
def dbExpired : DB :=
  { event := { mkEvent .VOTING with expiresAt := 10 }
    participants := [pAlice]
    recommendations := [sampleRec 1 1]
    votes := [] }

/-! # Theorems -/

/-! ## Helper lemmas -/

theorem length_insertByJoined (p : Participant) (l : List Participant) :
    (insertByJoined p l).length = l.length + 1 := by
  induction l with
  | nil => rfl
  | cons q qs ih =>
    unfold insertByJoined
    split
    · simp
    · simp [ih]

theorem length_sortByJoined (l : List Participant) :
    (sortByJoined l).length = l.length := by
  induction l with
  | nil => rfl
  | cons p ps ih => simp [sortByJoined, length_insertByJoined, ih]

theorem twoDigitSuffix_bounds (r : Nat) :
    10 ≤ twoDigitSuffix r ∧ twoDigitSuffix r ≤ 99 := by
  unfold twoDigitSuffix
  omega

theorem genNicknameLoop_shape (b : String) (ex : List String) (d : Nat → Nat) (ts : Nat) :
    ∀ fuel i, (∃ j, genNicknameLoop b ex d ts fuel i
        = b ++ "_" ++ toString (twoDigitSuffix (d j)))
      ∨ genNicknameLoop b ex d ts fuel i = b ++ "_" ++ last2OfTimestamp ts := by
  intro fuel
  induction fuel with
  | zero => intro i; exact Or.inr rfl
  | succ fuel ih =>
    intro i
    unfold genNicknameLoop
    by_cases hc : ex.contains (b ++ "_" ++ toString (twoDigitSuffix (d i))) = true
    · rw [if_pos hc]
      exact ih (i + 1)
    · rw [if_neg hc]
      exact Or.inl ⟨i, rfl⟩

theorem genNicknameLoop_all_collide (b : String) (ex : List String) (d : Nat → Nat) (ts : Nat) :
    ∀ fuel i,
      (∀ j, j < fuel → ex.contains (b ++ "_" ++ toString (twoDigitSuffix (d (i + j)))) = true) →
      genNicknameLoop b ex d ts fuel i = b ++ "_" ++ last2OfTimestamp ts := by
  intro fuel
  induction fuel with
  | zero => intro i _; rfl
  | succ fuel ih =>
    intro i hall
    unfold genNicknameLoop
    have h0 : ex.contains (b ++ "_" ++ toString (twoDigitSuffix (d i))) = true := by
      have := hall 0 (Nat.succ_pos fuel)
      simpa using this
    rw [if_pos h0]
    exact ih (i + 1) (fun j hj => by
      have := hall (j + 1) (Nat.succ_lt_succ hj)
      simpa [Nat.add_assoc, Nat.add_comm 1 j] using this)

/-! ## C9 — nickname assignment policy -/

/-- Claim C9: the nickname-assignment function returns the requested
nickname unchanged when it is unused; otherwise it returns the base with
an appended `_` and 2-digit suffix in 10–99, or — when 90 colliding
draws exhaust the retry budget — the timestamp-digits fallback (so the
function terminates on every input); the join response reports the
assigned nickname, the modification flag and determines the originally
requested nickname. -/
theorem C9_nickname_assignment (base : String) (existing : List String)
    (draws : Nat → Nat) (ts : Nat) (db : DB) (eventId address : String)
    (now pid jt : Nat) :
    (existing.contains base = false →
      generateUniqueNickname base existing draws ts = base)
    ∧ (existing.contains base = true →
        (∃ s, 10 ≤ s ∧ s ≤ 99 ∧
          generateUniqueNickname base existing draws ts = base ++ "_" ++ toString s)
        ∨ generateUniqueNickname base existing draws ts
            = base ++ "_" ++ last2OfTimestamp ts)
    ∧ ((∀ j, j < 90 →
          existing.contains (base ++ "_" ++ toString (twoDigitSuffix (draws j))) = true) →
        existing.contains base = true →
        generateUniqueNickname base existing draws ts
          = base ++ "_" ++ last2OfTimestamp ts)
    ∧ (∀ d, (joinEvent db eventId now base address draws ts pid jt).response = .ok d →
        d.assigned_nickname
            = generateUniqueNickname base
                ((eventParticipants db eventId).map (fun p => p.nickname)) draws ts
          ∧ (d.nickname_modified = true ↔ base ≠ d.assigned_nickname)
          ∧ d.original_nickname.getD d.assigned_nickname = base) := by
  refine ⟨?_, ?_, ?_, ?_⟩
  · intro h
    unfold generateUniqueNickname
    rw [h]
    simp
  · intro h
    unfold generateUniqueNickname
    rw [if_pos h]
    rcases genNicknameLoop_shape base existing draws ts 90 0 with ⟨j, hj⟩ | hfb
    · exact Or.inl ⟨twoDigitSuffix (draws j), (twoDigitSuffix_bounds _).1,
        (twoDigitSuffix_bounds _).2, hj⟩
    · exact Or.inr hfb
  · intro hall h
    unfold generateUniqueNickname
    rw [if_pos h]
    exact genNicknameLoop_all_collide base existing draws ts 90 0
      (fun j hj => by simpa using hall j hj)
  · intro d hd
    unfold joinEvent at hd
    cases hfind : findLiveEvent db eventId now with
    | none =>
      rw [hfind] at hd
      exact absurd hd (by simp)
    | some ev =>
      rw [hfind] at hd
      simp only [] at hd
      by_cases hs : ev.status = Status.WAITING
      · rw [if_neg (by simp [hs])] at hd
        by_cases hc :
            (eventParticipants db eventId).length ≥ ev.expectedParticipants
        · rw [if_pos hc] at hd
          exact absurd hd (by simp)
        · rw [if_neg hc] at hd
          simp only [JoinResponse.ok.injEq] at hd
          subst hd
          refine ⟨rfl, ?_, ?_⟩
          · dsimp only
            simp
          · dsimp only
            by_cases hmod :
                base ≠ generateUniqueNickname base
                  ((eventParticipants db eventId).map (fun p => p.nickname)) draws ts
            · rw [if_pos hmod]
              rfl
            · rw [if_neg hmod]
              simp only [Option.getD_none]
              exact (not_ne_iff.mp hmod).symm
      · rw [if_pos hs] at hd
        exact absurd hd (by simp)

/-- Witness for C9: "Alice" collides, a two-digit suffix is appended. -/
theorem C9_nickname_assignment_witness :
    (["Alice"].contains "Alice" = true)
    ∧ ((∃ s, 10 ≤ s ∧ s ≤ 99 ∧
          generateUniqueNickname "Alice" ["Alice"] (fun _ => 0) 1234
            = "Alice" ++ "_" ++ toString s)
        ∨ generateUniqueNickname "Alice" ["Alice"] (fun _ => 0) 1234
            = "Alice" ++ "_" ++ last2OfTimestamp 1234) :=
  ⟨by decide,
   (C9_nickname_assignment "Alice" ["Alice"] (fun _ => 0) 1234 dbWaiting1 "e1" "9 East St"
      50 3 3).2.1 (by decide)⟩

/-! ## C10 — frame of the automatic-generation failure handler -/

/-- Claim C10: when the automatic generation task fails, the error
handler writes only the event's `updatedAt` field (as an error signal);
the status, the recommendation set, the participants and the votes are
all left unchanged. -/
theorem C10_failure_frame (db : DB) (eventId : String) (now rid : Nat)
    (heid : db.event.id = eventId) :
    autoGenerate db eventId now .err rid
      = { db with event := { db.event with updatedAt := now } }
    ∧ (autoGenerate db eventId now .err rid).event.status = db.event.status
    ∧ (autoGenerate db eventId now .err rid).recommendations = db.recommendations
    ∧ (autoGenerate db eventId now .err rid).participants = db.participants
    ∧ (autoGenerate db eventId now .err rid).votes = db.votes := by
  have h : autoGenerate db eventId now .err rid
      = { db with event := { db.event with updatedAt := now } } := by
    simp only [autoGenerate]
    rw [if_pos heid]
  rw [h]
  exact ⟨rfl, rfl, rfl, rfl, rfl⟩

/-- Witness for C10 on a concrete full `READY` event. -/
theorem C10_failure_frame_witness :
    autoGenerate dbReady "e1" 77 .err 10
      = { dbReady with event := { dbReady.event with updatedAt := 77 } } :=
  (C10_failure_frame dbReady "e1" 77 10 rfl).1

/-! ## C4 — join admission and the threshold crossing -/

/-- Claim C4: for a live event, a join is rejected with the EVENT_FULL
(CONFLICT-class) error whenever the status is not WAITING or the
participant count has already reached `expectedParticipants`; the join
that brings the count from `expectedParticipants - 1` to exactly
`expectedParticipants` succeeds, moves the event from WAITING to READY
and schedules recommendation generation. -/
theorem C4_join_admission (db : DB) (eventId : String) (now : Nat)
    (nickname address : String) (draws : Nat → Nat) (ts pid jt : Nat)
    (heid : eventId = db.event.id) (hlive : now < db.event.expiresAt) :
    ((db.event.status ≠ .WAITING ∨
        (eventParticipants db eventId).length ≥ db.event.expectedParticipants) →
      joinEvent db eventId now nickname address draws ts pid jt
        = { response := .error .EVENT_FULL, db := db, generationScheduled := false })
    ∧ (db.event.status = .WAITING →
        (eventParticipants db eventId).length + 1 = db.event.expectedParticipants →
        2 ≤ db.event.expectedParticipants →
        (∃ d, (joinEvent db eventId now nickname address draws ts pid jt).response = .ok d
            ∧ d.participant_count = db.event.expectedParticipants
            ∧ d.should_generate_recommendations = true)
        ∧ (joinEvent db eventId now nickname address draws ts pid jt).db.event.status = .READY
        ∧ (joinEvent db eventId now nickname address draws ts pid jt).generationScheduled
            = true) := by
  have hfind : findLiveEvent db eventId now = some db.event := by
    unfold findLiveEvent
    rw [if_pos ⟨heid, hlive⟩]
  constructor
  · intro h
    unfold joinEvent
    rw [hfind]
    simp only []
    rcases h with h | h
    · rw [if_pos h]
    · by_cases hs : db.event.status = Status.WAITING
      · rw [if_neg (by simp [hs]), if_pos h]
      · rw [if_pos hs]
  · intro hs hcount hexp2
    unfold joinEvent
    rw [hfind]
    simp only []
    rw [if_neg (by simp [hs]), if_neg (by omega)]
    dsimp only
    rw [if_pos hcount]
    refine ⟨⟨_, rfl, hcount, by simp [hcount]⟩, rfl, ?_⟩
    simp only [decide_eq_true_eq]
    refine ⟨hcount, ?_⟩
    rw [length_sortByJoined]
    simp only [eventParticipants] at hcount ⊢
    simp
    omega

/-- Witness for C4: Carol's join completes the 2-person event. -/
theorem C4_join_admission_witness :
    ((joinEvent dbWaiting1 "e1" 50 "Carol" "9 East St" (fun _ => 0) 777 3 3).db.event.status
        = .READY)
    ∧ (joinEvent dbWaiting1 "e1" 50 "Carol" "9 East St" (fun _ => 0) 777 3 3).generationScheduled
        = true := by
  have h := (C4_join_admission dbWaiting1 "e1" 50 "Carol" "9 East St" (fun _ => 0) 777 3 3
    (by decide) (by decide)).2 (by decide) (by decide) (by decide)
  exact ⟨h.2.1, h.2.2⟩

/-! ## C5 — expired events -/

/-- Counterexample to claim C5 as stated: on the expired event of
`dbExpired` (which still stores a participant row) the
list-participants operation answers a plain success with the empty
list, not a NOT_FOUND-class result, and the list-recommendations
operation does the same. -/
theorem C5_counterexample :
    listParticipantsRoute dbExpired "e1" 20 = .ok []
    ∧ listRecommendationsRoute dbExpired "e1" 20 = .ok []
    ∧ dbExpired.event.expiresAt ≤ 20
    ∧ dbExpired.participants ≠ []
    ∧ dbExpired.recommendations ≠ [] := by decide

/-- Claim C5 (amended): every operation on an event whose `expiresAt`
is past behaves exactly as on a non-existent event, regardless of the
stored status; the single-entity operations (join, retry, vote, unvote,
tally, finalize, event read) answer their NOT_FOUND-class result with
no write, while the two collection reads (list participants, list
recommendations) answer success with the empty list — as they also do
for a non-existent event. -/
theorem C5_expired_not_found (db : DB) (eventId otherId : String) (now : Nat)
    (nickname address creatorNickname : String) (draws : Nat → Nat)
    (ts pid jt recId vid flid rid : Nat) (gen : GenResult) (viewer : Option String)
    (hexp : db.event.expiresAt ≤ now) (hother : otherId ≠ db.event.id) :
    (joinEvent db eventId now nickname address draws ts pid jt
      = { response := .error .EVENT_NOT_FOUND, db := db, generationScheduled := false }
    ∧ retryRecommendations db eventId now creatorNickname gen rid = (.EVENT_NOT_FOUND, db)
    ∧ castVote db eventId recId now nickname vid = (.EVENT_NOT_FOUND, db)
    ∧ removeVote db eventId recId now nickname = (.EVENT_NOT_FOUND, db)
    ∧ getVoteTally db eventId now viewer = .error "EVENT_NOT_FOUND"
    ∧ finalizeEvent db eventId now flid creatorNickname = (.EVENT_NOT_FOUND, db)
    ∧ getEventRoute db eventId now = .error "EVENT_NOT_FOUND"
    ∧ listParticipantsRoute db eventId now = .ok []
    ∧ listRecommendationsRoute db eventId now = .ok [])
    ∧ (joinEvent db eventId now nickname address draws ts pid jt
        = joinEvent db otherId now nickname address draws ts pid jt
    ∧ retryRecommendations db eventId now creatorNickname gen rid
        = retryRecommendations db otherId now creatorNickname gen rid
    ∧ castVote db eventId recId now nickname vid
        = castVote db otherId recId now nickname vid
    ∧ removeVote db eventId recId now nickname
        = removeVote db otherId recId now nickname
    ∧ getVoteTally db eventId now viewer = getVoteTally db otherId now viewer
    ∧ finalizeEvent db eventId now flid creatorNickname
        = finalizeEvent db otherId now flid creatorNickname
    ∧ getEventRoute db eventId now = getEventRoute db otherId now
    ∧ listParticipantsRoute db eventId now = listParticipantsRoute db otherId now
    ∧ listRecommendationsRoute db eventId now
        = listRecommendationsRoute db otherId now) := by
  have hnone : ∀ eid, findLiveEvent db eid now = none := by
    intro eid
    unfold findLiveEvent
    rw [if_neg]
    rintro ⟨-, h2⟩
    omega
  have hlp : ∀ eid, listParticipantsRoute db eid now = .ok [] := by
    intro eid
    unfold listParticipantsRoute
    have h : db.participants.filter
        (fun p => decide (p.eventId = eid ∧ p.eventId = db.event.id ∧
          now < db.event.expiresAt)) = [] := by
      rw [List.filter_eq_nil_iff]
      intro a _
      simp only [decide_eq_true_eq]
      rintro ⟨-, -, h2⟩
      omega
    rw [h]
    rfl
  have hlr : ∀ eid, listRecommendationsRoute db eid now = .ok [] := by
    intro eid
    unfold listRecommendationsRoute
    have h : db.recommendations.filter
        (fun r => decide (r.eventId = eid ∧ r.eventId = db.event.id ∧
          now < db.event.expiresAt)) = [] := by
      rw [List.filter_eq_nil_iff]
      intro a _
      simp only [decide_eq_true_eq]
      rintro ⟨-, -, h2⟩
      omega
    rw [h]
    rfl
  refine ⟨⟨?_, ?_, ?_, ?_, ?_, ?_, ?_, hlp eventId, hlr eventId⟩,
    ?_, ?_, ?_, ?_, ?_, ?_, ?_, (hlp eventId).trans (hlp otherId).symm,
    (hlr eventId).trans (hlr otherId).symm⟩
  · unfold joinEvent
    rw [hnone eventId]
  · unfold retryRecommendations
    rw [hnone eventId]
  · unfold castVote
    rw [hnone eventId]
  · unfold removeVote
    rw [hnone eventId]
  · unfold getVoteTally
    rw [hnone eventId]
  · unfold finalizeEvent
    rw [hnone eventId]
  · unfold getEventRoute
    rw [hnone eventId]
  · unfold joinEvent
    rw [hnone eventId, hnone otherId]
  · unfold retryRecommendations
    rw [hnone eventId, hnone otherId]
  · unfold castVote
    rw [hnone eventId, hnone otherId]
  · unfold removeVote
    rw [hnone eventId, hnone otherId]
  · unfold getVoteTally
    rw [hnone eventId, hnone otherId]
  · unfold finalizeEvent
    rw [hnone eventId, hnone otherId]
  · unfold getEventRoute
    rw [hnone eventId, hnone otherId]

/-- Witness for the amended C5 on the concrete expired event. -/
theorem C5_expired_not_found_witness :
    retryRecommendations dbExpired "e1" 20 "Alice" (.ok sampleInputs) 10
      = (.EVENT_NOT_FOUND, dbExpired)
    ∧ listParticipantsRoute dbExpired "e1" 20 = .ok [] := by
  have h := C5_expired_not_found dbExpired "e1" "zz" 20 "Alice" "x" "Alice"
    (fun _ => 0) 0 3 3 1 9 1 10 (.ok sampleInputs) none (by decide) (by decide)
  exact ⟨h.1.2.1, h.1.2.2.2.2.2.2.2.1⟩

/-! ## C7 — manual retry preconditions -/

/-- Claim C7: a manual retry on a live event is accepted (i.e. reaches
the generator, answering either success or the generation error) only
when the status is exactly READY, the participant count equals
`expectedParticipants` exactly and the caller nickname matches the
creator's; a nickname mismatch (with the other preconditions met)
yields the authorization error, while a wrong status or an incomplete
count yield the distinct non-authorization errors. -/
theorem C7_retry_preconditions (db : DB) (eventId : String) (now : Nat)
    (creatorNickname : String) (gen : GenResult) (rid : Nat)
    (heid : eventId = db.event.id) (hlive : now < db.event.expiresAt) :
    (db.event.status ≠ .READY →
      retryRecommendations db eventId now creatorNickname gen rid = (.EVENT_NOT_READY, db))
    ∧ (db.event.status = .READY →
        (eventParticipantsSorted db eventId).length ≠ db.event.expectedParticipants →
        retryRecommendations db eventId now creatorNickname gen rid
          = (.PARTICIPANTS_NOT_COMPLETE, db))
    ∧ (∀ c, db.event.status = .READY →
        (eventParticipantsSorted db eventId).length = db.event.expectedParticipants →
        creatorOf db eventId = some c → c.nickname ≠ creatorNickname →
        retryRecommendations db eventId now creatorNickname gen rid = (.NOT_AUTHORIZED, db))
    ∧ (creatorOf db eventId = none →
        db.event.status = .READY →
        (eventParticipantsSorted db eventId).length = db.event.expectedParticipants →
        retryRecommendations db eventId now creatorNickname gen rid = (.NOT_AUTHORIZED, db))
    ∧ (∀ c, db.event.status = .READY →
        (eventParticipantsSorted db eventId).length = db.event.expectedParticipants →
        creatorOf db eventId = some c → c.nickname = creatorNickname →
        (retryRecommendations db eventId now creatorNickname gen rid).1 = .success
        ∨ (retryRecommendations db eventId now creatorNickname gen rid).1 = .LLM_ERROR) := by
  have hfind : findLiveEvent db eventId now = some db.event := by
    unfold findLiveEvent
    rw [if_pos ⟨heid, hlive⟩]
  refine ⟨?_, ?_, ?_, ?_, ?_⟩
  · intro hs
    unfold retryRecommendations
    rw [hfind]
    simp only []
    rw [if_pos hs]
  · intro hs hc
    unfold retryRecommendations
    rw [hfind]
    simp only []
    rw [if_neg (by simp [hs]), if_pos hc]
  · intro c hs hc hcr hnick
    unfold retryRecommendations
    rw [hfind]
    simp only []
    rw [if_neg (by simp [hs]), if_neg (by simp [hc])]
    unfold creatorOf at hcr
    rw [hcr]
    simp only []
    rw [if_pos hnick]
  · intro hcr hs hc
    unfold retryRecommendations
    rw [hfind]
    simp only []
    rw [if_neg (by simp [hs]), if_neg (by simp [hc])]
    unfold creatorOf at hcr
    rw [hcr]
  · intro c hs hc hcr hnick
    unfold retryRecommendations
    rw [hfind]
    simp only []
    rw [if_neg (by simp [hs]), if_neg (by simp [hc])]
    unfold creatorOf at hcr
    rw [hcr]
    simp only []
    rw [if_neg (by simp [hnick])]
    cases gen with
    | err => exact Or.inr rfl
    | ok recs =>
      simp only []
      by_cases hlen : recs.length > 0
      · rw [if_pos hlen]
        exact Or.inl rfl
      · rw [if_neg hlen]
        exact Or.inr rfl

/-- Witness for C7: non-creator retry is NOT_AUTHORIZED, creator retry
on the full READY event reaches the generator. -/
theorem C7_retry_preconditions_witness :
    retryRecommendations dbReady "e1" 50 "Mallory" (.ok sampleInputs) 10
      = (.NOT_AUTHORIZED, dbReady)
    ∧ ((retryRecommendations dbReady "e1" 50 "Alice" (.ok sampleInputs) 10).1 = .success
      ∨ (retryRecommendations dbReady "e1" 50 "Alice" (.ok sampleInputs) 10).1 = .LLM_ERROR) := by
  refine ⟨?_, ?_⟩
  · exact (C7_retry_preconditions dbReady "e1" 50 "Mallory" (.ok sampleInputs) 10
      (by decide) (by decide)).2.2.1 pAlice (by decide) (by decide) (by decide) (by decide)
  · exact (C7_retry_preconditions dbReady "e1" 50 "Alice" (.ok sampleInputs) 10
      (by decide) (by decide)).2.2.2.2 pAlice (by decide) (by decide) (by decide) (by decide)

/-! ## C1 — persistence of a successful generation run -/

theorem recRows_map_rank (rs : List RecInput) (e : String) :
    ∀ i t, (recRows e i t rs).map (fun r => r.rank) = rs.map (fun r => r.rank) := by
  induction rs with
  | nil => intro i t; rfl
  | cons r rs ih =>
    intro i t
    simp only [recRows, List.map_cons, recRow]
    rw [ih]

/-- Counterexample to claim C1 as stated: an automatic-generation run
on an event that already holds a recommendation row does NOT delete it
— the transaction only inserts, leaving four rows instead of three.
(Only the manual retry transaction deletes first.) -/
theorem C1_counterexample :
    (autoGenerate dbReadyWithRec "e1" 100 (.ok sampleInputs) 10).recommendations.length = 4
    ∧ sampleRec 99 1 ∈ (autoGenerate dbReadyWithRec "e1" 100 (.ok sampleInputs) 10).recommendations
    ∧ dbReadyWithRec.recommendations = [sampleRec 99 1] := by decide

/-- Claim C1 (amended): on a non-empty generator result the manual
retry persists in one atomic transaction — deleting all pre-existing
recommendations of the event first, inserting the new rows (with the
generator's ranks 1–3), setting the status to VOTING and
`votingStartedAt` to the current time; the automatic path's single
transaction performs the same insertions and event updates but does not
delete pre-existing recommendation rows. -/
theorem C1_generation_persistence (db : DB) (eventId : String) (now : Nat)
    (creatorNickname : String) (recs : List RecInput) (rid : Nat) (c : Participant)
    (heid : eventId = db.event.id) (hlive : now < db.event.expiresAt)
    (hne : recs ≠ [])
    (hranks : recs.map (fun r => r.rank) = [1, 2, 3])
    (hready : db.event.status = .READY)
    (hcount : (eventParticipantsSorted db eventId).length = db.event.expectedParticipants)
    (hcreator : creatorOf db eventId = some c) (hnick : c.nickname = creatorNickname) :
    retryRecommendations db eventId now creatorNickname (.ok recs) rid
      = (.success,
         { db with
           recommendations := db.recommendations.filter (fun r => r.eventId ≠ eventId)
             ++ recRows eventId rid now recs
           event := { db.event with status := .VOTING, votingStartedAt := some now } })
    ∧ (recRows eventId rid now recs).map (fun r => r.rank) = [1, 2, 3]
    ∧ autoGenerate db eventId now (.ok recs) rid
      = { db with
          recommendations := db.recommendations ++ recRows eventId rid now recs
          event := { db.event with status := .VOTING, votingStartedAt := some now } } := by
  have hfind : findLiveEvent db eventId now = some db.event := by
    unfold findLiveEvent
    rw [if_pos ⟨heid, hlive⟩]
  have hlen : recs.length > 0 := List.length_pos.mpr hne
  refine ⟨?_, ?_, ?_⟩
  · unfold retryRecommendations
    rw [hfind]
    simp only []
    rw [if_neg (by simp [hready]), if_neg (by simp [hcount])]
    unfold creatorOf at hcreator
    rw [hcreator]
    simp only []
    rw [if_neg (by simp [hnick]), if_pos hlen]
  · rw [recRows_map_rank]
    exact hranks
  · simp only [autoGenerate]
    rw [if_pos hlen, if_pos heid.symm]

/-- Witness for the amended C1 on the concrete `READY` event that
already holds a stale recommendation row. -/
theorem C1_generation_persistence_witness :
    retryRecommendations dbReadyWithRec "e1" 100 "Alice" (.ok sampleInputs) 10
      = (.success,
         { dbReadyWithRec with
           recommendations := dbReadyWithRec.recommendations.filter (fun r => r.eventId ≠ "e1")
             ++ recRows "e1" 10 100 sampleInputs
           event := { dbReadyWithRec.event with
                      status := .VOTING, votingStartedAt := some 100 } }) :=
  (C1_generation_persistence dbReadyWithRec "e1" 100 "Alice" sampleInputs 10 pAlice
    (by decide) (by decide) (by decide) (by decide) (by decide) (by decide)
    (by decide) (by decide)).1

/-! ## C2 — propagation policy on generation failure -/

theorem joinEvent_crossed_facts (db : DB) (eventId : String) (now : Nat)
    (nickname address : String) (draws : Nat → Nat) (ts pid jt : Nat)
    (heid : eventId = db.event.id) (hlive : now < db.event.expiresAt)
    (hwait : db.event.status = .WAITING)
    (hcount : (eventParticipants db eventId).length + 1 = db.event.expectedParticipants) :
    (∃ d, (joinEvent db eventId now nickname address draws ts pid jt).response = .ok d)
    ∧ (joinEvent db eventId now nickname address draws ts pid jt).db.event.status = .READY
    ∧ (joinEvent db eventId now nickname address draws ts pid jt).db.event.id = db.event.id
    ∧ (joinEvent db eventId now nickname address draws ts pid jt).db.recommendations
        = db.recommendations := by
  have hfind : findLiveEvent db eventId now = some db.event := by
    unfold findLiveEvent
    rw [if_pos ⟨heid, hlive⟩]
  unfold joinEvent
  rw [hfind]
  simp only []
  rw [if_neg (by simp [hwait]), if_neg (by omega)]
  dsimp only
  rw [if_pos hcount]
  exact ⟨⟨_, rfl⟩, rfl, rfl, rfl⟩

/-- Claim C2: when the automatic generation task (spawned by a
threshold-crossing join) fails, the join response itself still reports
success and the event is left READY with zero recommendations; when a
manual retry's generation fails, the caller receives the explicit
generation-failure error and no write at all is performed. -/
theorem C2_generation_failure_policy
    (db : DB) (eventId : String) (now now2 : Nat) (nickname address : String)
    (draws : Nat → Nat) (ts pid jt rid : Nat)
    (db2 : DB) (eventId2 creatorNickname : String) (now3 rid2 : Nat) (c : Participant)
    (heid : eventId = db.event.id) (hlive : now < db.event.expiresAt)
    (hwait : db.event.status = .WAITING)
    (hcount : (eventParticipants db eventId).length + 1 = db.event.expectedParticipants)
    (hnorecs : db.recommendations = [])
    (heid2 : eventId2 = db2.event.id) (hlive2 : now3 < db2.event.expiresAt)
    (hready : db2.event.status = .READY)
    (hcount2 : (eventParticipantsSorted db2 eventId2).length = db2.event.expectedParticipants)
    (hcreator : creatorOf db2 eventId2 = some c) (hnick : c.nickname = creatorNickname) :
    (∃ d, (joinEvent db eventId now nickname address draws ts pid jt).response = .ok d)
    ∧ (autoGenerate (joinEvent db eventId now nickname address draws ts pid jt).db
        eventId now2 .err rid).event.status = .READY
    ∧ (autoGenerate (joinEvent db eventId now nickname address draws ts pid jt).db
        eventId now2 .err rid).recommendations = []
    ∧ retryRecommendations db2 eventId2 now3 creatorNickname .err rid2
        = (.LLM_ERROR, db2) := by
  obtain ⟨hok, hstat, hid, hrecs⟩ := joinEvent_crossed_facts db eventId now nickname address
    draws ts pid jt heid hlive hwait hcount
  refine ⟨hok, ?_, ?_, ?_⟩
  · simp only [autoGenerate]
    rw [if_pos (by rw [hid, ← heid])]
    exact hstat
  · simp only [autoGenerate]
    exact hrecs.trans hnorecs
  · have hfind2 : findLiveEvent db2 eventId2 now3 = some db2.event := by
      unfold findLiveEvent
      rw [if_pos ⟨heid2, hlive2⟩]
    unfold retryRecommendations
    rw [hfind2]
    simp only []
    rw [if_neg (by simp [hready]), if_neg (by simp [hcount2])]
    unfold creatorOf at hcreator
    rw [hcreator]
    simp only []
    rw [if_neg (by simp [hnick])]

/-- Witness for C2: Carol's join crosses the threshold of the waiting
event; failure handling is exercised on the join-side store and the
concrete full READY event. -/
theorem C2_generation_failure_policy_witness :
    (autoGenerate (joinEvent dbWaiting1 "e1" 50 "Carol" "9 East St" (fun _ => 0) 777 3 3).db
        "e1" 99 .err 10).event.status = .READY
    ∧ retryRecommendations dbReady "e1" 50 "Alice" .err 10 = (.LLM_ERROR, dbReady) := by
  have h := C2_generation_failure_policy dbWaiting1 "e1" 50 99 "Carol" "9 East St"
    (fun _ => 0) 777 3 3 10 dbReady "e1" "Alice" 50 10 pAlice
    (by decide) (by decide) (by decide) (by decide) (by decide)
    (by decide) (by decide) (by decide) (by decide) (by decide) (by decide)
  exact ⟨h.2.1, h.2.2.2⟩

/-! ## C6 — cast-vote behaviour -/

/-- Counterexample to claim C6 as stated: when Alice re-votes for the
recommendation she already voted for, the handler answers only the bare
`ALREADY_VOTED` error — no tally (vote count, voters, membership) is
returned on that outcome, so "the operation returns the updated tally"
does not hold for every cast-vote request. -/
theorem C6_counterexample :
    castVote dbVoting "e1" 1 50 "Alice" 9 = (.ALREADY_VOTED, dbVoting) := by decide

/-- Claim C6 (amended): for a cast-vote request by a participant of a
live VOTING event on a recommendation of the event — if the voter's
live vote already points at the requested recommendation, nothing
changes and the distinct ALREADY_VOTED outcome is reported (without a
tally); if it points at a different recommendation the old vote is
deleted and the new one inserted, and if no vote exists one is
inserted, both in one transaction step whose response is the updated
tally for that recommendation: its vote count, the voter nicknames and
whether this voter is among them. -/
theorem C6_cast_vote_behaviour (db : DB) (eventId : String) (recId now vid : Nat)
    (nickname : String)
    (heid : eventId = db.event.id) (hlive : now < db.event.expiresAt)
    (hvoting : db.event.status = .VOTING)
    (hpart : (eventParticipants db eventId).any (fun p => p.nickname = nickname) = true)
    (hrec : (db.recommendations.find?
        (fun r => r.id = recId ∧ r.eventId = eventId)).isSome = true) :
    (∀ ev, db.votes.find?
          (fun v => v.eventId = eventId ∧ v.voterNickname = nickname) = some ev →
        (ev.recommendationId = recId →
          castVote db eventId recId now nickname vid = (.ALREADY_VOTED, db))
        ∧ (ev.recommendationId ≠ recId →
          castVote db eventId recId now nickname vid
            = (voteSummaryResult
                 { db with votes := db.votes.filter (fun v => v.id ≠ ev.id)
                     ++ [{ id := vid, recommendationId := recId, eventId := eventId,
                           voterNickname := nickname }] } recId nickname,
               { db with votes := db.votes.filter (fun v => v.id ≠ ev.id)
                   ++ [{ id := vid, recommendationId := recId, eventId := eventId,
                         voterNickname := nickname }] })))
    ∧ (db.votes.find?
          (fun v => v.eventId = eventId ∧ v.voterNickname = nickname) = none →
        castVote db eventId recId now nickname vid
          = (voteSummaryResult
               { db with votes := db.votes
                   ++ [{ id := vid, recommendationId := recId, eventId := eventId,
                         voterNickname := nickname }] } recId nickname,
             { db with votes := db.votes
                 ++ [{ id := vid, recommendationId := recId, eventId := eventId,
                       voterNickname := nickname }] }))
    ∧ (∀ db2 : DB, voteSummaryResult db2 recId nickname
        = .ok (db2.votes.filter (fun v => v.recommendationId = recId)).length
            ((db2.votes.filter (fun v => v.recommendationId = recId)).map
              (fun v => v.voterNickname))
            (((db2.votes.filter (fun v => v.recommendationId = recId)).map
              (fun v => v.voterNickname)).contains nickname)) := by
  have hfind : findLiveEvent db eventId now = some db.event := by
    unfold findLiveEvent
    rw [if_pos ⟨heid, hlive⟩]
  obtain ⟨r, hr⟩ := Option.isSome_iff_exists.mp hrec
  refine ⟨?_, ?_, ?_⟩
  · intro ev hev
    constructor
    · intro hsame
      unfold castVote
      rw [hfind]
      simp only []
      rw [if_neg (by simp [hvoting]), if_neg (by simp [hpart]), hr]
      simp only []
      rw [hev]
      simp only []
      rw [if_pos hsame]
    · intro hdiff
      unfold castVote
      rw [hfind]
      simp only []
      rw [if_neg (by simp [hvoting]), if_neg (by simp [hpart]), hr]
      simp only []
      rw [hev]
      simp only []
      rw [if_neg hdiff]
  · intro hnone
    unfold castVote
    rw [hfind]
    simp only []
    rw [if_neg (by simp [hvoting]), if_neg (by simp [hpart]), hr]
    simp only []
    rw [hnone]
  · intro db2
    rfl

/-- Witness for the amended C6: Bob, who has not voted yet, casts a
fresh vote for recommendation 2. -/
theorem C6_cast_vote_behaviour_witness :
    castVote dbVoting "e1" 2 50 "Bob" 9
      = (voteSummaryResult
           { dbVoting with votes := dbVoting.votes
               ++ [{ id := 9, recommendationId := 2, eventId := "e1",
                     voterNickname := "Bob" }] } 2 "Bob",
         { dbVoting with votes := dbVoting.votes
             ++ [{ id := 9, recommendationId := 2, eventId := "e1",
                   voterNickname := "Bob" }] }) :=
  (C6_cast_vote_behaviour dbVoting "e1" 2 50 9 "Bob"
    (by decide) (by decide) (by decide) (by decide) (by decide)).2.1 (by decide)

/-! ## C8 — cast-then-unvote round trip -/

/-- Counterexample to claim C8 as stated: Alice has a live vote for
recommendation 1; casting a vote for recommendation 2 (a switch, which
deletes the old vote) and immediately unvoting recommendation 2 leaves
her with no vote at all, so the tally is NOT returned to its pre-vote
state. -/
theorem C8_counterexample :
    getVoteTally ((removeVote (castVote dbVoting "e1" 2 50 "Alice" 9).2
        "e1" 2 50 "Alice").2) "e1" 50 none
      ≠ getVoteTally dbVoting "e1" 50 none
    ∧ ((removeVote (castVote dbVoting "e1" 2 50 "Alice" 9).2 "e1" 2 50 "Alice").2).votes = []
    ∧ dbVoting.votes ≠ [] := by decide

/-- Claim C8 (amended): for a participant of a live VOTING event who
holds no live vote in the event, casting a vote for a recommendation of
the event and immediately unvoting that same recommendation restores
the store — and hence every tally — exactly to its pre-vote state; for
a participant with an existing vote the switch deletes it and the
unvote does not restore it. -/
theorem C8_vote_unvote_roundtrip (db : DB) (eventId : String) (recId now vid : Nat)
    (nickname : String)
    (heid : eventId = db.event.id) (hlive : now < db.event.expiresAt)
    (hvoting : db.event.status = .VOTING)
    (hpart : (eventParticipants db eventId).any (fun p => p.nickname = nickname) = true)
    (hrec : (db.recommendations.find?
        (fun r => r.id = recId ∧ r.eventId = eventId)).isSome = true)
    (hnovote : ∀ v ∈ db.votes, ¬(v.eventId = eventId ∧ v.voterNickname = nickname))
    (hfresh : ∀ v ∈ db.votes, v.id ≠ vid) :
    (removeVote (castVote db eventId recId now nickname vid).2 eventId recId now nickname).2
      = db := by
  have hfind : findLiveEvent db eventId now = some db.event := by
    unfold findLiveEvent
    rw [if_pos ⟨heid, hlive⟩]
  obtain ⟨r, hr⟩ := Option.isSome_iff_exists.mp hrec
  have hnone : db.votes.find?
      (fun v => v.eventId = eventId ∧ v.voterNickname = nickname) = none := by
    rw [List.find?_eq_none]
    intro v hv
    simpa using hnovote v hv
  have hcast : (castVote db eventId recId now nickname vid).2
      = { db with votes := db.votes
          ++ [{ id := vid, recommendationId := recId, eventId := eventId,
                voterNickname := nickname }] } := by
    unfold castVote
    rw [hfind]
    simp only []
    rw [if_neg (by simp [hvoting]), if_neg (by simp [hpart]), hr]
    simp only []
    rw [hnone]
  rw [hcast]
  unfold removeVote
  have hfind1 : findLiveEvent
      { db with votes := db.votes
          ++ [{ id := vid, recommendationId := recId, eventId := eventId,
                voterNickname := nickname }] } eventId now = some db.event := hfind
  rw [hfind1]
  simp only []
  rw [if_neg (by simp [hvoting]), if_neg (by simp [eventParticipants] at hpart ⊢; exact hpart)]
  have hfind2 : ((db.votes ++ [(⟨vid, recId, eventId, nickname⟩ : Vote)]).find?
        (fun v => v.recommendationId = recId ∧ v.eventId = eventId ∧
          v.voterNickname = nickname))
      = some (⟨vid, recId, eventId, nickname⟩ : Vote) := by
    rw [List.find?_append]
    have h1 : db.votes.find?
        (fun v => v.recommendationId = recId ∧ v.eventId = eventId ∧
          v.voterNickname = nickname) = none := by
      rw [List.find?_eq_none]
      intro v hv
      simp only [decide_eq_true_eq]
      rintro ⟨-, h2, h3⟩
      exact hnovote v hv ⟨h2, h3⟩
    rw [h1]
    simp
  rw [hfind2]
  simp only []
  have hflt : (db.votes ++ [(⟨vid, recId, eventId, nickname⟩ : Vote)]).filter
        (fun v => v.id ≠ vid) = db.votes := by
    rw [List.filter_append]
    have h2 : db.votes.filter (fun v => decide (v.id ≠ vid)) = db.votes :=
      List.filter_eq_self.mpr (fun v hv => by simpa using hfresh v hv)
    have h3 : ([(⟨vid, recId, eventId, nickname⟩ : Vote)]).filter
        (fun v => decide (v.id ≠ vid)) = [] := by simp
    rw [h2, h3, List.append_nil]
  rw [hflt]

/-- Witness for the amended C8: Bob (no live vote) votes for
recommendation 2 and immediately unvotes it. -/
theorem C8_vote_unvote_roundtrip_witness :
    (removeVote (castVote dbVoting "e1" 2 50 "Bob" 9).2 "e1" 2 50 "Bob").2 = dbVoting :=
  C8_vote_unvote_roundtrip dbVoting "e1" 2 50 9 "Bob"
    (by decide) (by decide) (by decide) (by decide) (by decide) (by decide) (by decide)

/-! ## C3 — at most one live vote per (eventId, voterNickname) -/

theorem eq_singleton_of_length_le_one {α : Type} {l : List α} {a : α}
    (h : l.length ≤ 1) (ha : a ∈ l) : l = [a] := by
  cases l with
  | nil => cases ha
  | cons b t =>
    cases t with
    | nil =>
      rw [List.mem_singleton] at ha
      rw [ha]
    | cons c t2 => simp at h

theorem liveVotes_filter_le (votes : List Vote) (q : Vote → Bool) (e n : String) :
    (liveVotes (votes.filter q) e n).length ≤ (liveVotes votes e n).length := by
  unfold liveVotes
  exact ((List.filter_sublist votes).filter _).length_le

theorem liveVotes_singleton_le (x : Vote) (e n : String) :
    (liveVotes [x] e n).length ≤ 1 := by
  unfold liveVotes
  simpa using List.length_filter_le _ [x]

theorem liveVotes_singleton_other (i r : Nat) (e n e' n' : String)
    (hk : ¬(e = e' ∧ n = n')) :
    liveVotes [(⟨i, r, e, n⟩ : Vote)] e' n' = [] := by
  unfold liveVotes
  rw [List.filter_eq_nil_iff]
  intro a ha
  rw [List.mem_singleton] at ha
  subst ha
  simpa using hk

theorem liveVotes_insert (votes : List Vote) (e n : String) (r i : Nat)
    (hnone : votes.find? (fun v => v.eventId = e ∧ v.voterNickname = n) = none)
    (hinv : ∀ e' n', (liveVotes votes e' n').length ≤ 1) :
    ∀ e' n', (liveVotes (votes ++ [(⟨i, r, e, n⟩ : Vote)]) e' n').length ≤ 1 := by
  intro e' n'
  have happ : liveVotes (votes ++ [(⟨i, r, e, n⟩ : Vote)]) e' n'
      = liveVotes votes e' n' ++ liveVotes [(⟨i, r, e, n⟩ : Vote)] e' n' := by
    unfold liveVotes
    rw [List.filter_append]
  rw [happ, List.length_append]
  by_cases hk : e = e' ∧ n = n'
  · obtain ⟨he, hn⟩ := hk
    subst he
    subst hn
    have h0 : liveVotes votes e n = [] := by
      unfold liveVotes
      rw [List.filter_eq_nil_iff]
      intro a ha
      simpa using List.find?_eq_none.mp hnone a ha
    rw [h0]
    simpa using liveVotes_singleton_le (⟨i, r, e, n⟩ : Vote) e n
  · rw [liveVotes_singleton_other i r e n e' n' hk]
    simpa using hinv e' n'

theorem liveVotes_switch (votes : List Vote) (e n : String) (r i : Nat) (ev : Vote)
    (hfind : votes.find? (fun v => v.eventId = e ∧ v.voterNickname = n) = some ev)
    (hinv : ∀ e' n', (liveVotes votes e' n').length ≤ 1) :
    ∀ e' n', (liveVotes (votes.filter (fun v => v.id ≠ ev.id)
        ++ [(⟨i, r, e, n⟩ : Vote)]) e' n').length ≤ 1 := by
  have hev : ev.eventId = e ∧ ev.voterNickname = n := by
    simpa using List.find?_some hfind
  have hmem : ev ∈ votes := List.mem_of_find?_eq_some hfind
  have hsingl : liveVotes votes e n = [ev] := by
    apply eq_singleton_of_length_le_one (hinv e n)
    unfold liveVotes
    rw [List.mem_filter]
    exact ⟨hmem, by simpa using hev⟩
  intro e' n'
  have happ : liveVotes (votes.filter (fun v => v.id ≠ ev.id)
        ++ [(⟨i, r, e, n⟩ : Vote)]) e' n'
      = liveVotes (votes.filter (fun v => v.id ≠ ev.id)) e' n'
        ++ liveVotes [(⟨i, r, e, n⟩ : Vote)] e' n' := by
    unfold liveVotes
    rw [List.filter_append]
  rw [happ, List.length_append]
  by_cases hk : e = e' ∧ n = n'
  · obtain ⟨he, hn⟩ := hk
    subst he
    subst hn
    have h0 : liveVotes (votes.filter (fun v => v.id ≠ ev.id)) e n = [] := by
      unfold liveVotes
      rw [List.filter_eq_nil_iff]
      intro a ha
      rw [List.mem_filter] at ha
      obtain ⟨ham, haid⟩ := ha
      simp only [decide_eq_true_eq]
      intro hkey
      have hmem2 : a ∈ liveVotes votes e n := by
        unfold liveVotes
        rw [List.mem_filter]
        exact ⟨ham, by simpa using hkey⟩
      rw [hsingl, List.mem_singleton] at hmem2
      subst hmem2
      simp at haid
    rw [h0]
    simpa using liveVotes_singleton_le (⟨i, r, e, n⟩ : Vote) e n
  · rw [liveVotes_singleton_other i r e n e' n' hk]
    simpa using le_trans (liveVotes_filter_le votes _ e' n') (hinv e' n')

theorem castVote_preserves_invariant (db : DB) (e : String) (r t : Nat) (n : String)
    (i : Nat) (hinv : VoteInvariant db) : VoteInvariant (castVote db e r t n i).2 := by
  unfold castVote
  cases hf : findLiveEvent db e t with
  | none => exact hinv
  | some ev =>
    simp only []
    by_cases hs : ev.status ≠ Status.VOTING
    · rw [if_pos hs]
      exact hinv
    · rw [if_neg hs]
      by_cases hp : (eventParticipants db e).any (fun p => p.nickname = n) = true
      · rw [if_neg (not_not_intro hp)]
        cases hrec : db.recommendations.find? (fun rc => rc.id = r ∧ rc.eventId = e) with
        | none => exact hinv
        | some rc =>
          simp only []
          cases hv : db.votes.find? (fun v => v.eventId = e ∧ v.voterNickname = n) with
          | none => exact liveVotes_insert db.votes e n r i hv hinv
          | some ev2 =>
            simp only []
            by_cases hsame : ev2.recommendationId = r
            · rw [if_pos hsame]
              exact hinv
            · rw [if_neg hsame]
              exact liveVotes_switch db.votes e n r i ev2 hv hinv
      · rw [if_pos hp]
        exact hinv

theorem removeVote_preserves_invariant (db : DB) (e : String) (r t : Nat) (n : String)
    (hinv : VoteInvariant db) : VoteInvariant (removeVote db e r t n).2 := by
  unfold removeVote
  cases hf : findLiveEvent db e t with
  | none => exact hinv
  | some ev =>
    simp only []
    by_cases hs : ev.status ≠ Status.VOTING
    · rw [if_pos hs]
      exact hinv
    · rw [if_neg hs]
      by_cases hp : (eventParticipants db e).any (fun p => p.nickname = n) = true
      · rw [if_neg (not_not_intro hp)]
        cases hv : db.votes.find?
            (fun v => v.recommendationId = r ∧ v.eventId = e ∧ v.voterNickname = n) with
        | none => exact hinv
        | some ev2 =>
          intro e' n'
          exact le_trans (liveVotes_filter_le db.votes _ e' n') (hinv e' n')
      · rw [if_pos hp]
        exact hinv

theorem applyVoteOps_preserves_invariant (ops : List VoteOp) :
    ∀ db, VoteInvariant db → VoteInvariant (applyVoteOps db ops) := by
  induction ops with
  | nil => exact fun db h => h
  | cons op ops ih =>
    intro db h
    have h1 : VoteInvariant (applyVoteOp db op) := by
      cases op with
      | cast e r t n i => exact castVote_preserves_invariant db e r t n i h
      | remove e r t n => exact removeVote_preserves_invariant db e r t n h
    exact ih (applyVoteOp db op) h1

/-- Claim C3: starting from a store with at most one live vote per
(eventId, voterNickname) pair, any sequence of cast-vote and
remove-vote operations preserves that bound; and a vote change is one
transaction step that deletes the old vote and inserts the new one. -/
theorem C3_single_vote_invariant (db : DB) (ops : List VoteOp)
    (eventId : String) (recId now vid : Nat) (nickname : String) (ev : Vote)
    (hinv : VoteInvariant db)
    (heid : eventId = db.event.id) (hlive : now < db.event.expiresAt)
    (hvoting : db.event.status = .VOTING)
    (hpart : (eventParticipants db eventId).any (fun p => p.nickname = nickname) = true)
    (hrec : (db.recommendations.find?
        (fun r => r.id = recId ∧ r.eventId = eventId)).isSome = true)
    (hfind : db.votes.find?
        (fun v => v.eventId = eventId ∧ v.voterNickname = nickname) = some ev)
    (hdiff : ev.recommendationId ≠ recId) :
    VoteInvariant (applyVoteOps db ops)
    ∧ (castVote db eventId recId now nickname vid).2.votes
        = db.votes.filter (fun v => v.id ≠ ev.id)
          ++ [(⟨vid, recId, eventId, nickname⟩ : Vote)] := by
  refine ⟨applyVoteOps_preserves_invariant ops db hinv, ?_⟩
  have hfind0 : findLiveEvent db eventId now = some db.event := by
    unfold findLiveEvent
    rw [if_pos ⟨heid, hlive⟩]
  obtain ⟨r, hr⟩ := Option.isSome_iff_exists.mp hrec
  unfold castVote
  rw [hfind0]
  simp only []
  rw [if_neg (by simp [hvoting]), if_neg (by simp [hpart]), hr]
  simp only []
  rw [hfind]
  simp only []
  rw [if_neg hdiff]

/-- Witness for C3 on the concrete VOTING event: Alice (voted for
recommendation 1) switches to recommendation 2, then removes it. -/
theorem C3_single_vote_invariant_witness :
    VoteInvariant (applyVoteOps dbVoting
      [.cast "e1" 2 50 "Alice" 9, .remove "e1" 2 60 "Alice"])
    ∧ (castVote dbVoting "e1" 2 50 "Alice" 9).2.votes
        = dbVoting.votes.filter (fun v => v.id ≠ (5 : Nat))
          ++ [(⟨9, 2, "e1", "Alice"⟩ : Vote)] := by
  have h := C3_single_vote_invariant dbVoting
    [.cast "e1" 2 50 "Alice" 9, .remove "e1" 2 60 "Alice"]
    "e1" 2 50 9 "Alice" ⟨5, 1, "e1", "Alice"⟩
    (fun e n => le_trans (List.length_filter_le _ _) (by decide))
    (by decide) (by decide) (by decide) (by decide) (by decide) (by decide) (by decide)
  exact h

end Where2Meet
